import Mathlib

/-!
Shallow embedding of the ShortLink URL-shortening service
(`app/main.py`, `app/models.py`).

Timestamps are modelled as natural numbers (seconds since an arbitrary
epoch); the database is modelled as a list of link rows, looked up the way
SQLAlchemy's `scalar_one_or_none` over a `select ... where short_code == c`
behaves on a table whose `short_code` column is unique: the first row whose
`short_code` matches.  Each HTTP handler becomes a function from its inputs
and the current store to a pair of (response or raised error, resulting
store); a handler that never commits returns the store unchanged, exactly as
the source never writes in that handler.  The random source of
`generate_short_code` (Python's `random.choices`) is passed in explicitly as
a choice function, and the token decoder `decode_access_token` (defined in
`app/auth`, outside the modelled core) is a function parameter of the
handlers that authenticate.
-/

namespace ShortLink

/-- Row of the `users` table (`app/models.py`, class `User`). -/
structure User where
  id : Nat
  email : String
  hashed_password : String
deriving DecidableEq, Repr

/-- Row of the `shortened_links` table (`app/models.py`, class
`ShortenedLink`).  `created_at` defaults to the creation time, `click_count`
to 0, `last_used_at` to NULL, `user_id` is a nullable foreign key. -/
structure ShortenedLink where
  id : Nat
  original_url : String
  short_code : String
  created_at : Nat
  expires_at : Option Nat
  click_count : Nat
  last_used_at : Option Nat
  user_id : Option Nat
deriving DecidableEq, Repr

/-- The links table. -/
abbrev Store := List ShortenedLink

/-- Everything a handler can raise: FastAPI `HTTPException(status, detail)`,
or an uncaught Python exception (`AttributeError` from dereferencing `None`,
`NameError` from evaluating an unbound name). -/
inductive PyException where
  | httpException : Nat → String → PyException
  | attributeError : PyException
  | nameError : String → PyException
deriving DecidableEq, Repr

/-- `select(ShortenedLink).where(ShortenedLink.short_code == code)` followed
by `scalar_one_or_none()`: the row with the given (unique) short code, if
any. -/
def getByCode : Store → String → Option ShortenedLink
  | [], _ => none
  | l :: rest, code => if l.short_code == code then some l else getByCode rest code

/-- Mutating a fetched ORM row and committing: the row holding `code` is
replaced by `link'` in the table. -/
def updateByCode (db : Store) (code : String) (link' : ShortenedLink) : Store :=
  db.map (fun l => if l.short_code == code then link' else l)

/-- `await db.delete(link)` on the row fetched by `code`, then commit. -/
def deleteByCode (db : Store) (code : String) : Store :=
  db.eraseP (fun l => l.short_code == code)

/-- The object FastAPI's `HTTPBearer` dependency yields when an
`Authorization: Bearer <token>` header is present. -/
structure HTTPAuthorizationCredentials where
  credentials : String
deriving DecidableEq, Repr

/-- `get_current_user` (`app/main.py` lines 77-90).  The module-level
dependency is `HTTPBearer(auto_error=False)` (line 20), so when the request
carries no Authorization header the dependency yields `None` rather than
raising; the handler then evaluates `credentials.credentials` on that
`None`, which in Python raises `AttributeError`.  `decode` stands for
`decode_access_token` composed with `int(payload.get("sub"))`, yielding the
user id carried by a valid token. -/
def get_current_user (decode : String → Option Nat) (users : List User)
    (credentials : Option HTTPAuthorizationCredentials) : Except PyException User :=
  match credentials with
  | none => Except.error PyException.attributeError
  | some creds =>
      match decode creds.credentials with
      | none => Except.error (PyException.httpException 401 "Invalid token")
      | some user_id =>
          match users.find? (fun u => u.id == user_id) with
          | none => Except.error (PyException.httpException 401 "User not found")
          | some user => Except.ok user

/-- Python's `string.ascii_letters`: lower-case then upper-case letters. -/
def ascii_letters : List Char :=
  "abcdefghijklmnopqrstuvwxyzABCDEFGHIJKLMNOPQRSTUVWXYZ".toList

/-- Python's `string.digits`. -/
def string_digits : List Char := "0123456789".toList

/-- The alphabet `string.ascii_letters + string.digits` that
`generate_short_code` draws from. -/
def codeAlphabet : List Char := ascii_letters ++ string_digits

/-- `generate_short_code(length=6)` (`app/main.py` lines 97-98):
`''.join(random.choices(string.ascii_letters + string.digits, k=length))`.
The random draws of `random.choices` are supplied as `pick`, one alphabet
index per output position. -/
def generate_short_code (length : Nat) (pick : Fin length → Fin codeAlphabet.length) :
    String :=
  ⟨(List.finRange length).map (fun i => codeAlphabet.get (pick i))⟩

/-- Request body of `POST /links/shorten`. -/
structure ShortenLinkRequest where
  original_url : String
  custom_alias : Option String
  expires_at : Option Nat
deriving DecidableEq, Repr

/-- `request_data.custom_alias or generate_short_code()`: Python `or`
falls through to the generator when the alias is `None` or the empty
string (both falsy). -/
def chosen_short_code (req : ShortenLinkRequest)
    (pick : Fin 6 → Fin codeAlphabet.length) : String :=
  match req.custom_alias with
  | some a => if a.isEmpty then generate_short_code 6 pick else a
  | none => generate_short_code 6 pick

/-- Response of `POST /links/shorten`. -/
structure ShortenResponse where
  short_url : String
  created_by : String
deriving DecidableEq, Repr

/-- `shorten_link` (`app/main.py` lines 120-148).  `current_user` is the
result of the non-raising `get_current_user_optional` dependency; `new_id`
is the primary key the store assigns; `now` feeds the `created_at` column
default. -/
def shorten_link (db : Store) (req : ShortenLinkRequest) (base_url : String)
    (current_user : Option User) (pick : Fin 6 → Fin codeAlphabet.length)
    (new_id : Nat) (now : Nat) : Except PyException ShortenResponse × Store :=
  let short_code := chosen_short_code req pick
  match getByCode db short_code with
  | some _ => (Except.error (PyException.httpException 400 "Alias is already taken"), db)
  | none =>
      let new_link : ShortenedLink :=
        { id := new_id
          original_url := req.original_url
          short_code := short_code
          created_at := now
          expires_at := req.expires_at
          click_count := 0
          last_used_at := none
          user_id := current_user.map (fun u => u.id) }
      (Except.ok
        { short_url := base_url ++ short_code
          created_by := match current_user with | some u => u.email | none => "anonymous" },
       db ++ [new_link])

/-- The test `link.expires_at and link.expires_at < datetime.utcnow()` on
line 158: a `None` `expires_at` is falsy, otherwise compare strictly with
the current time. -/
def link_is_expired (link : ShortenedLink) (now : Nat) : Bool :=
  match link.expires_at with
  | some e => decide (e < now)
  | none => false

/-- `redirect_to_original_url` (`app/main.py` lines 152-163): look the code
up, 404 if absent, 410 if expired, otherwise increment `click_count`, stamp
`last_used_at` with the current time, commit, and answer with the
destination URL. -/
def redirect_to_original_url (db : Store) (short_code : String) (now : Nat) :
    Except PyException String × Store :=
  match getByCode db short_code with
  | none => (Except.error (PyException.httpException 404 "Short URL not found"), db)
  | some link =>
      if link_is_expired link now then
        (Except.error (PyException.httpException 410 "Link has expired"), db)
      else
        (Except.ok link.original_url,
         updateByCode db short_code
           { link with click_count := link.click_count + 1, last_used_at := some now })

/-- `get_original_url` (`app/main.py` lines 165-171): the non-redirecting
lookup; no expiry test, no mutation, no commit. -/
def get_original_url (db : Store) (short_code : String) :
    Except PyException String × Store :=
  match getByCode db short_code with
  | none => (Except.error (PyException.httpException 404 "Short URL not found"), db)
  | some link => (Except.ok link.original_url, db)

/-- Response of `GET /links/\x7bshort_code\x7d/stats`. -/
structure StatsResponse where
  original_url : String
  created_at : Nat
  click_count : Nat
  last_used_at : Option Nat
deriving DecidableEq, Repr

/-- `get_link_stats` (`app/main.py` lines 173-188): authenticate, look the
code up, and answer 403 "Access denied" when the row is absent or its
`user_id` differs from the caller's id. -/
def get_link_stats (db : Store) (users : List User) (decode : String → Option Nat)
    (credentials : Option HTTPAuthorizationCredentials) (short_code : String) :
    Except PyException StatsResponse × Store :=
  match get_current_user decode users credentials with
  | Except.error e => (Except.error e, db)
  | Except.ok current_user =>
      match getByCode db short_code with
      | none => (Except.error (PyException.httpException 403 "Access denied"), db)
      | some link =>
          if link.user_id ≠ some current_user.id then
            (Except.error (PyException.httpException 403 "Access denied"), db)
          else
            (Except.ok
              { original_url := link.original_url
                created_at := link.created_at
                click_count := link.click_count
                last_used_at := link.last_used_at }, db)

/-- One element of the `GET /me/links` response. -/
structure MyLinkEntry where
  short_code : String
  original_url : String
  click_count : Nat
deriving DecidableEq, Repr

/-- `get_my_links` (`app/main.py` lines 190-203). -/
def get_my_links (db : Store) (users : List User) (decode : String → Option Nat)
    (credentials : Option HTTPAuthorizationCredentials) :
    Except PyException (List MyLinkEntry) × Store :=
  match get_current_user decode users credentials with
  | Except.error e => (Except.error e, db)
  | Except.ok current_user =>
      (Except.ok
        ((db.filter (fun l => l.user_id == some current_user.id)).map
          (fun l =>
            { short_code := l.short_code
              original_url := l.original_url
              click_count := l.click_count })), db)

/-- `delete_short_link` (`app/main.py` lines 205-217): same guard as the
stats handler, then delete the row and commit. -/
def delete_short_link (db : Store) (users : List User) (decode : String → Option Nat)
    (credentials : Option HTTPAuthorizationCredentials) (short_code : String) :
    Except PyException String × Store :=
  match get_current_user decode users credentials with
  | Except.error e => (Except.error e, db)
  | Except.ok current_user =>
      match getByCode db short_code with
      | none => (Except.error (PyException.httpException 403 "Access denied"), db)
      | some link =>
          if link.user_id ≠ some current_user.id then
            (Except.error (PyException.httpException 403 "Access denied"), db)
          else
            (Except.ok ("Short URL " ++ short_code ++ " deleted"),
             deleteByCode db short_code)

/-- `update_short_link` (`app/main.py` lines 219-235): same guard, then
overwrite `original_url` with the form field and commit. -/
def update_short_link (db : Store) (users : List User) (decode : String → Option Nat)
    (credentials : Option HTTPAuthorizationCredentials) (short_code : String)
    (new_original_url : String) (base_url : String) :
    Except PyException String × Store :=
  match get_current_user decode users credentials with
  | Except.error e => (Except.error e, db)
  | Except.ok current_user =>
      match getByCode db short_code with
      | none => (Except.error (PyException.httpException 403 "Access denied"), db)
      | some link =>
          if link.user_id ≠ some current_user.id then
            (Except.error (PyException.httpException 403 "Access denied"), db)
          else
            (Except.ok (base_url ++ "/" ++ short_code),
             updateByCode db short_code { link with original_url := new_original_url })

/-- `INACTIVITY_DAYS_LIMIT = 7` (`app/main.py` line 21).  Defined by the
module but referenced nowhere else in it. -/
def INACTIVITY_DAYS_LIMIT : Nat := 7

/-- The name `N_DAYS_INACTIVE` that `cleanup_old_links_task` evaluates on
line 243 is bound nowhere in `app/main.py` nor imported; evaluating an
unbound name in Python raises `NameError`.  Modelled as the absent module
binding. -/
def N_DAYS_INACTIVE : Option Nat := none

/-- `timedelta(days=n)` as seconds. -/
def timedelta_days (n : Nat) : Nat := n * 86400

/-- One cycle of the body of `cleanup_old_links_task` (`app/main.py` lines
238-249): compute `threshold_date = datetime.utcnow() -
timedelta(days=N_DAYS_INACTIVE)` and issue
`delete(ShortenedLink).where(ShortenedLink.last_used_at < threshold_date)`
(a SQL comparison, under which a NULL `last_used_at` never satisfies the
predicate).  Because `N_DAYS_INACTIVE` is unbound, evaluating the threshold
expression raises `NameError` before the delete statement runs, so the
store is returned untouched. -/
def cleanup_old_links_cycle (db : Store) (now : Nat) : Except PyException Unit × Store :=
  match N_DAYS_INACTIVE with
  | none => (Except.error (PyException.nameError "N_DAYS_INACTIVE"), db)
  | some n =>
      let threshold_date := now - timedelta_days n
      (Except.ok (),
       db.filter (fun l =>
         match l.last_used_at with
         | none => true
         | some t => decide (threshold_date ≤ t)))

/-! ### Store lemmas -/

theorem short_code_of_getByCode {db : Store} {code : String} {link : ShortenedLink}
    (h : getByCode db code = some link) : link.short_code = code := by
  induction db with
  | nil => cases h
  | cons hd tl ih =>
      by_cases hp : (hd.short_code == code) = true
      · rw [getByCode, if_pos hp] at h
        injection h with h'
        subst h'
        exact eq_of_beq hp
      · rw [getByCode, if_neg hp] at h
        exact ih h

theorem getByCode_update_self {db : Store} {code : String} {link link' : ShortenedLink}
    (h : getByCode db code = some link) (hc : link'.short_code = code) :
    getByCode (updateByCode db code link') code = some link' := by
  induction db with
  | nil => cases h
  | cons hd tl ih =>
      by_cases hp : (hd.short_code == code) = true
      · rw [updateByCode, List.map_cons, if_pos hp, getByCode, if_pos (by simp [hc])]
      · rw [getByCode, if_neg hp] at h
        rw [updateByCode, List.map_cons, if_neg hp, getByCode, if_neg hp]
        exact ih h

theorem getByCode_update_ne {db : Store} {code c : String} {link' : ShortenedLink}
    (hc : link'.short_code = code) (hne : c ≠ code) :
    getByCode (updateByCode db code link') c = getByCode db c := by
  induction db with
  | nil => rfl
  | cons hd tl ih =>
      by_cases hp : (hd.short_code == code) = true
      · have hhd : hd.short_code = code := eq_of_beq hp
        have hcc : ¬ code = c := fun hcc => hne hcc.symm
        have hq : ¬ ((link'.short_code == c) = true) := by simp [hc, hcc]
        have hq' : ¬ ((hd.short_code == c) = true) := by simp [hhd, hcc]
        rw [updateByCode, List.map_cons, if_pos hp, getByCode, if_neg hq,
          getByCode, if_neg hq']
        exact ih
      · rw [updateByCode, List.map_cons, if_neg hp]
        by_cases hr : (hd.short_code == c) = true
        · rw [getByCode, if_pos hr, getByCode, if_pos hr]
        · rw [getByCode, if_neg hr, getByCode, if_neg hr]
          exact ih

/-! ### Concrete fixtures used by the witnesses -/

def demoUser : User := { id := 1, email := "alice", hashed_password := "hp" }

def demoUsers : List User := [demoUser]

def demoDecode : String → Option Nat := fun _ => some 1

def demoCreds : Option HTTPAuthorizationCredentials := some { credentials := "tok" }

def demoLink : ShortenedLink :=
  { id := 1, original_url := "https://example.com", short_code := "abc",
    created_at := 0, expires_at := none, click_count := 3,
    last_used_at := some 5, user_id := some 1 }

def expiredLink : ShortenedLink :=
  { id := 2, original_url := "https://old.example.com", short_code := "exp",
    created_at := 0, expires_at := some 3, click_count := 7,
    last_used_at := some 2, user_id := none }

def otherLink : ShortenedLink :=
  { id := 3, original_url := "https://theirs.example.com", short_code := "abc",
    created_at := 0, expires_at := none, click_count := 0,
    last_used_at := none, user_id := some 2 }

/-! ### Claims -/

/-- C2: for a stored, non-expired link, a successful resolution answers with
the link's `original_url`, increments `click_count` by exactly 1, and sets
`last_used_at` to the current time, which (under monotone time: any earlier
`last_used_at` stamp is at most `now`) is at least its previous value. -/
theorem c2_successful_resolution_accounting (db : Store) (code : String) (now : Nat)
    (link : ShortenedLink) (h : getByCode db code = some link)
    (hexp : link_is_expired link now = false)
    (hmono : ∀ t, link.last_used_at = some t → t ≤ now) :
    (redirect_to_original_url db code now).1 = Except.ok link.original_url ∧
    ∃ link', getByCode (redirect_to_original_url db code now).2 code = some link' ∧
      link'.click_count = link.click_count + 1 ∧
      link'.last_used_at = some now ∧
      ∀ t, link.last_used_at = some t → t ≤ now := by
  have hc := short_code_of_getByCode h
  refine ⟨by simp [redirect_to_original_url, h, hexp],
    { link with click_count := link.click_count + 1, last_used_at := some now },
    ?_, rfl, rfl, hmono⟩
  simp only [redirect_to_original_url, h, hexp, Bool.false_eq_true, if_false]
  exact getByCode_update_self h hc

/-- Witness for C2 at a concrete store and time. -/
theorem c2_witness :
    (redirect_to_original_url [demoLink] "abc" 10).1 = Except.ok demoLink.original_url ∧
    ∃ link', getByCode (redirect_to_original_url [demoLink] "abc" 10).2 "abc" = some link' ∧
      link'.click_count = demoLink.click_count + 1 ∧
      link'.last_used_at = some 10 ∧
      ∀ t, demoLink.last_used_at = some t → t ≤ 10 :=
  c2_successful_resolution_accounting [demoLink] "abc" 10 demoLink (by decide) (by decide)
    (by intro t ht; simp [demoLink] at ht; omega)

/-- C3: resolving a stored link whose `expires_at` lies strictly in the past
raises the distinct 410 "Link has expired" failure, leaves the store — in
particular `click_count` and `last_used_at` — untouched, and does not delete
the link. -/
theorem c3_expired_resolution_is_pure (db : Store) (code : String) (now : Nat)
    (link : ShortenedLink) (e : Nat) (h : getByCode db code = some link)
    (he : link.expires_at = some e) (hpast : e < now) :
    (redirect_to_original_url db code now).1
        = Except.error (PyException.httpException 410 "Link has expired") ∧
    (redirect_to_original_url db code now).2 = db ∧
    ∃ link', getByCode (redirect_to_original_url db code now).2 code = some link' ∧
      link'.click_count = link.click_count ∧ link'.last_used_at = link.last_used_at := by
  have hexp : link_is_expired link now = true := by simp [link_is_expired, he, hpast]
  refine ⟨by simp [redirect_to_original_url, h, hexp], by simp [redirect_to_original_url, h, hexp],
    link, ?_, rfl, rfl⟩
  simp [redirect_to_original_url, h, hexp]

/-- Witness for C3 on a link that expired at time 3, resolved at time 10. -/
theorem c3_witness :
    (redirect_to_original_url [expiredLink] "exp" 10).1
        = Except.error (PyException.httpException 410 "Link has expired") ∧
    (redirect_to_original_url [expiredLink] "exp" 10).2 = [expiredLink] ∧
    ∃ link', getByCode (redirect_to_original_url [expiredLink] "exp" 10).2 "exp" = some link' ∧
      link'.click_count = expiredLink.click_count ∧
      link'.last_used_at = expiredLink.last_used_at :=
  c3_expired_resolution_is_pure [expiredLink] "exp" 10 expiredLink 3 (by decide) (by decide)
    (by decide)

/-- C4: resolving a code that is absent from the store yields the 404
NotFound failure and never the 410 Expired failure — the existence check
runs before the expiry check. -/
theorem c4_absent_code_is_notfound (db : Store) (code : String) (now : Nat)
    (h : getByCode db code = none) :
    (redirect_to_original_url db code now).1
        = Except.error (PyException.httpException 404 "Short URL not found") ∧
    ∀ s, (redirect_to_original_url db code now).1
        ≠ Except.error (PyException.httpException 410 s) := by
  refine ⟨by simp [redirect_to_original_url, h], ?_⟩
  intro s hcontra
  rw [show (redirect_to_original_url db code now).1
      = Except.error (PyException.httpException 404 "Short URL not found")
    from by simp [redirect_to_original_url, h]] at hcontra
  simp at hcontra

/-- Witness for C4 on the empty store. -/
theorem c4_witness :
    (redirect_to_original_url [] "nope" 10).1
        = Except.error (PyException.httpException 404 "Short URL not found") ∧
    ∀ s, (redirect_to_original_url [] "nope" 10).1
        ≠ Except.error (PyException.httpException 410 s) :=
  c4_absent_code_is_notfound [] "nope" 10 rfl

/-- C9: the non-redirecting lookup has exactly two outcomes — the stored
link's `original_url` for any present code, the expiry notwithstanding, and
404 for any absent code — it never answers 410 and never mutates the
store. -/
theorem c9_lookup_two_outcomes (db : Store) (code : String) :
    (get_original_url db code).2 = db ∧
    (∀ link, getByCode db code = some link →
      (get_original_url db code).1 = Except.ok link.original_url) ∧
    (getByCode db code = none →
      (get_original_url db code).1
          = Except.error (PyException.httpException 404 "Short URL not found")) ∧
    (∀ s, (get_original_url db code).1
        ≠ Except.error (PyException.httpException 410 s)) := by
  cases hm : getByCode db code with
  | none => simp [get_original_url, hm]
  | some link => simp [get_original_url, hm]

/-- Witness for C9: the lookup of an already expired link still answers with
its destination URL, not 410. -/
theorem c9_witness :
    (get_original_url [expiredLink] "exp").1 = Except.ok expiredLink.original_url :=
  (c9_lookup_two_outcomes [expiredLink] "exp").2.1 expiredLink (by decide)

/-- C7: every code produced by the generator, whatever the random draws,
has length exactly 6, all of its characters come from the alphabet of
upper-case letters, lower-case letters and digits, and that alphabet has
exactly 62 symbols. -/
theorem c7_generated_code_shape (pick : Fin 6 → Fin codeAlphabet.length) :
    (generate_short_code 6 pick).length = 6 ∧
    (∀ c ∈ (generate_short_code 6 pick).toList, c ∈ codeAlphabet) ∧
    codeAlphabet.length = 62 := by
  refine ⟨by simp [generate_short_code, String.length], ?_, by decide⟩
  intro c hcmem
  have hmem : c ∈ (List.finRange 6).map (fun i => codeAlphabet.get (pick i)) := hcmem
  obtain ⟨i, _, hi⟩ := List.mem_map.mp hmem
  exact hi ▸ List.get_mem _ _ _

theorem get_original_url_store (db : Store) (code : String) :
    (get_original_url db code).2 = db := by
  unfold get_original_url
  split <;> rfl

theorem get_link_stats_store (db : Store) (users : List User)
    (decode : String → Option Nat) (creds : Option HTTPAuthorizationCredentials)
    (code : String) : (get_link_stats db users decode creds code).2 = db := by
  unfold get_link_stats
  split
  · rfl
  · split
    · rfl
    · split <;> rfl

theorem get_my_links_store (db : Store) (users : List User)
    (decode : String → Option Nat) (creds : Option HTTPAuthorizationCredentials) :
    (get_my_links db users decode creds).2 = db := by
  unfold get_my_links
  split <;> rfl

/-- C1: for every caller — authenticated or not — each owner-scoped handler
(stats, update, delete) answers identically on a store where the code is
absent and on a store where the code names a link the caller does not own
(a different owner or no owner at all); whenever the caller authenticates,
that common answer is the one 403 "Access denied" denial, so the denial
never reveals whether the link exists. -/
theorem c1_owner_guard_uniform_denial
    (decode : String → Option Nat) (users : List User)
    (creds : Option HTTPAuthorizationCredentials) (code newUrl base : String)
    (db1 db2 : Store) (link : ShortenedLink)
    (h1 : getByCode db1 code = none)
    (h2 : getByCode db2 code = some link)
    (hown : ∀ u, get_current_user decode users creds = Except.ok u →
      link.user_id ≠ some u.id) :
    (get_link_stats db1 users decode creds code).1
        = (get_link_stats db2 users decode creds code).1 ∧
    (update_short_link db1 users decode creds code newUrl base).1
        = (update_short_link db2 users decode creds code newUrl base).1 ∧
    (delete_short_link db1 users decode creds code).1
        = (delete_short_link db2 users decode creds code).1 ∧
    ∀ u, get_current_user decode users creds = Except.ok u →
      (get_link_stats db2 users decode creds code).1
          = Except.error (PyException.httpException 403 "Access denied") ∧
      (update_short_link db2 users decode creds code newUrl base).1
          = Except.error (PyException.httpException 403 "Access denied") ∧
      (delete_short_link db2 users decode creds code).1
          = Except.error (PyException.httpException 403 "Access denied") := by
  cases hu : get_current_user decode users creds with
  | error e =>
      refine ⟨?_, ?_, ?_, ?_⟩ <;>
        simp [get_link_stats, update_short_link, delete_short_link, hu]
  | ok u =>
      have hne := hown u hu
      refine ⟨?_, ?_, ?_, ?_⟩ <;>
        simp [get_link_stats, update_short_link, delete_short_link, hu, h1, h2, hne]

/-- Witness for C1: an authenticated non-owner gets the same answer on the
empty store as on a store holding another user's link under the same
code. -/
theorem c1_witness :
    (get_link_stats [] demoUsers demoDecode demoCreds "abc").1
        = (get_link_stats [otherLink] demoUsers demoDecode demoCreds "abc").1 :=
  (c1_owner_guard_uniform_denial demoDecode demoUsers demoCreds "abc"
    "https://new.example" "b" [] [otherLink] otherLink rfl (by decide)
    (by
      intro u hu
      have hdemo : get_current_user demoDecode demoUsers demoCreds
          = Except.ok demoUser := rfl
      rw [hdemo] at hu
      injection hu with h'
      subst h'
      decide)).1

def pickA : Fin 6 → Fin codeAlphabet.length := fun _ => ⟨0, by decide⟩

def autoLink : ShortenedLink :=
  { id := 4, original_url := "https://auto.example.com", short_code := "aaaaaa",
    created_at := 0, expires_at := none, click_count := 0,
    last_used_at := none, user_id := none }

/-- C5 counterexample: with no custom alias and random draws that reproduce
an already stored code ("aaaaaa"), `shorten_link` surfaces the 400 "Alias is
already taken" failure to the user and does not retry with a fresh code —
refuting the claim that an auto-generated collision is regenerated silently
and never surfaced as AliasTaken. -/
theorem c5_counterexample :
    (shorten_link [autoLink]
        { original_url := "https://x.example", custom_alias := none, expires_at := none }
        "http://s/" none pickA 5 0).1
      = Except.error (PyException.httpException 400 "Alias is already taken") ∧
    (shorten_link [autoLink]
        { original_url := "https://x.example", custom_alias := none, expires_at := none }
        "http://s/" none pickA 5 0).2 = [autoLink] := by
  exact ⟨rfl, rfl⟩

/-- C5 amended: on a short-code uniqueness collision during creation the
request fails with 400 "Alias is already taken" and the store is unchanged,
whether the colliding code was a caller-supplied custom alias or
auto-generated: the handler never regenerates or retries. -/
theorem c5_any_collision_rejected (db : Store) (req : ShortenLinkRequest)
    (base : String) (cur : Option User) (pick : Fin 6 → Fin codeAlphabet.length)
    (new_id now : Nat) (link : ShortenedLink)
    (h : getByCode db (chosen_short_code req pick) = some link) :
    (shorten_link db req base cur pick new_id now).1
        = Except.error (PyException.httpException 400 "Alias is already taken") ∧
    (shorten_link db req base cur pick new_id now).2 = db := by
  simp [shorten_link, h]

/-- Witness for the amended C5 on a caller-supplied alias collision. -/
theorem c5_witness :
    (shorten_link [demoLink]
        { original_url := "https://y.example", custom_alias := some "abc", expires_at := none }
        "http://s/" none pickA 6 0).1
      = Except.error (PyException.httpException 400 "Alias is already taken") ∧
    (shorten_link [demoLink]
        { original_url := "https://y.example", custom_alias := some "abc", expires_at := none }
        "http://s/" none pickA 6 0).2 = [demoLink] :=
  c5_any_collision_rejected [demoLink]
    { original_url := "https://y.example", custom_alias := some "abc", expires_at := none }
    "http://s/" none pickA 6 0 demoLink (by decide)

/-- C6: every sweeper cycle evaluates the unbound name `N_DAYS_INACTIVE`
and so raises `NameError` before the delete statement runs — no link is
ever deleted and the configured `INACTIVITY_DAYS_LIMIT = 7` is never
consulted; in particular a link whose `last_used_at` is 8 days in the past
survives the cycle, against the claim. -/
theorem c6_sweeper_cycle_raises_nameerror (db : Store) (now : Nat)
    (link : ShortenedLink) (h : link ∈ db) :
    (cleanup_old_links_cycle db now).1
        = Except.error (PyException.nameError "N_DAYS_INACTIVE") ∧
    link ∈ (cleanup_old_links_cycle db now).2 :=
  ⟨rfl, h⟩

def staleLink : ShortenedLink :=
  { id := 5, original_url := "https://stale.example.com", short_code := "stale",
    created_at := 0, expires_at := none, click_count := 1,
    last_used_at := some (timedelta_days 92), user_id := none }

/-- Witness for C6: at `now` = day 100, a link last used on day 92 — 8 days
inactive, past the 7-day window — is still in the store after the cycle,
which dies with `NameError`. -/
theorem c6_witness :
    (cleanup_old_links_cycle [staleLink] (timedelta_days 100)).1
        = Except.error (PyException.nameError "N_DAYS_INACTIVE") ∧
    staleLink ∈ (cleanup_old_links_cycle [staleLink] (timedelta_days 100)).2 :=
  c6_sweeper_cycle_raises_nameerror [staleLink] (timedelta_days 100) staleLink
    (by simp)

/-- C8: `click_count` and `last_used_at` are mutated only by the
successful-resolution path — lookup, stats and list-mine return the store
untouched, creation keeps every pre-existing row, and an owner's update
rewrites only `original_url`, preserving `id`, `short_code`, `created_at`,
`expires_at`, `click_count` and `last_used_at` of the updated row and
leaving every other code's row exactly as it was. -/
theorem c8_only_resolution_mutates_accounting
    (db : Store) (users : List User) (decode : String → Option Nat)
    (creds : Option HTTPAuthorizationCredentials) (code newUrl base base2 : String)
    (req : ShortenLinkRequest) (cur : Option User)
    (pick : Fin 6 → Fin codeAlphabet.length) (new_id now : Nat) :
    (get_original_url db code).2 = db ∧
    (get_link_stats db users decode creds code).2 = db ∧
    (get_my_links db users decode creds).2 = db ∧
    (∀ l ∈ db, l ∈ (shorten_link db req base2 cur pick new_id now).2) ∧
    (∀ u link, get_current_user decode users creds = Except.ok u →
      getByCode db code = some link → link.user_id = some u.id →
      ∃ link',
        getByCode (update_short_link db users decode creds code newUrl base).2 code
            = some link' ∧
        link'.original_url = newUrl ∧ link'.id = link.id ∧
        link'.short_code = link.short_code ∧ link'.created_at = link.created_at ∧
        link'.expires_at = link.expires_at ∧ link'.click_count = link.click_count ∧
        link'.last_used_at = link.last_used_at) ∧
    (∀ c, c ≠ code →
      getByCode (update_short_link db users decode creds code newUrl base).2 c
          = getByCode db c) := by
  refine ⟨get_original_url_store db code, get_link_stats_store db users decode creds code,
    get_my_links_store db users decode creds, ?_, ?_, ?_⟩
  · intro l hl
    cases hm : getByCode db (chosen_short_code req pick) with
    | some x => simpa [shorten_link, hm] using hl
    | none =>
        simp only [shorten_link, hm]
        exact List.mem_append_left _ hl
  · intro u link hu hm hid
    have hc := short_code_of_getByCode hm
    have hnn : ¬ (link.user_id ≠ some u.id) := fun hk => hk hid
    refine ⟨{ link with original_url := newUrl }, ?_, rfl, rfl, rfl, rfl, rfl, rfl, rfl⟩
    simp only [update_short_link, hu, hm, if_neg hnn]
    exact getByCode_update_self hm hc
  · intro c hcne
    cases hu : get_current_user decode users creds with
    | error e => simp [update_short_link, hu]
    | ok u =>
        cases hm : getByCode db code with
        | none => simp [update_short_link, hu, hm]
        | some link =>
            have hc := short_code_of_getByCode hm
            by_cases hid : link.user_id ≠ some u.id
            · simp [update_short_link, hu, hm, hid]
            · simp only [update_short_link, hu, hm, if_neg hid]
              exact getByCode_update_ne hc hcne

/-- Witness for C8: the owner's update of a link's destination preserves
its click accounting fields. -/
theorem c8_witness :
    ∃ link',
      getByCode (update_short_link [demoLink] demoUsers demoDecode demoCreds "abc"
          "https://new.example" "b").2 "abc" = some link' ∧
      link'.original_url = "https://new.example" ∧ link'.id = demoLink.id ∧
      link'.short_code = demoLink.short_code ∧ link'.created_at = demoLink.created_at ∧
      link'.expires_at = demoLink.expires_at ∧ link'.click_count = demoLink.click_count ∧
      link'.last_used_at = demoLink.last_used_at :=
  (c8_only_resolution_mutates_accounting [demoLink] demoUsers demoDecode demoCreds
    "abc" "https://new.example" "b" "s"
    { original_url := "https://z.example", custom_alias := none, expires_at := none }
    none pickA 9 0).2.2.2.2.1 demoUser demoLink rfl (by decide) (by decide)

/-- C10: the bearer dependency is built with `auto_error=False`, so a
request without an Authorization header hands `None` to `get_current_user`,
whose attribute access on `None` raises `AttributeError` — the
missing-credential case never reaches a 401 `HTTPException`; every 401 the
dependency does raise requires present credentials, and a present but
undecodable token yields 401 "Invalid token". -/
theorem c10_missing_credentials_crash (decode : String → Option Nat)
    (users : List User) (creds : Option HTTPAuthorizationCredentials) :
    get_current_user decode users none = Except.error PyException.attributeError ∧
    (∀ status detail, get_current_user decode users creds
        = Except.error (PyException.httpException status detail) →
      ∃ c, creds = some c) ∧
    (∀ c, creds = some c → decode c.credentials = none →
      get_current_user decode users creds
          = Except.error (PyException.httpException 401 "Invalid token")) := by
  refine ⟨rfl, ?_, ?_⟩
  · intro status detail hh
    cases creds with
    | none => exact absurd hh (by simp [get_current_user])
    | some c => exact ⟨c, rfl⟩
  · intro c hc hdec
    subst hc
    simp [get_current_user, hdec]

/-- Witness for C10: a headerless request crashes with `AttributeError`,
while a present token that fails to decode gets the 401. -/
theorem c10_witness :
    get_current_user (fun _ => none) demoUsers none
        = Except.error PyException.attributeError ∧
    get_current_user (fun _ => none) demoUsers demoCreds
        = Except.error (PyException.httpException 401 "Invalid token") :=
  ⟨(c10_missing_credentials_crash (fun _ => none) demoUsers demoCreds).1,
   (c10_missing_credentials_crash (fun _ => none) demoUsers demoCreds).2.2
     { credentials := "tok" } rfl rfl⟩

end ShortLink
